import Mathlib

/-!
Shallow embedding of the reservation coordination engine of `src/app.py`
(RetellAI restaurant-reservation service).

Modelling conventions:
* Python `str` is `String`; an optional `str` (default `None`) is `Option String`.
* Python truthiness of an optional string (`if call_id:`) is `pyTruthy`:
  `None` and `""` are falsy.
* `datetime.now()` is modelled by an explicit `now : Nat` parameter threaded
  through the operations; only ordering-irrelevant claims are stated, so the
  abstraction of time is harmless.
* `uuid.uuid4()` in `create_reservation` is modelled by an explicit
  `reservation_id` parameter (the source stores whatever fresh id it drew).
* The two module-level dicts `active_reservations` and `pending_updates`
  (owned by the `ReservationCoordinator`) form the state `CoordState`; Python
  dicts are modelled as association lists in insertion order: `insertA`
  overwrites in place or appends (like a dict assignment) and `eraseA`
  removes the key (like `del`).
* Functions that Python mutates in place are written as state transformers
  returning the new `CoordState` (plus the returned value, when any).
-/

namespace Retell

/-- `class ReservationStatus(Enum)` of src/app.py:37-46. -/
inductive ReservationStatus where
  | INITIATED
  | CALLING_RESTAURANT
  | SPEAKING_WITH_RESTAURANT
  | CHECKING_AVAILABILITY
  | CONFIRMED
  | DECLINED
  | RESTAURANT_BUSY
  | NO_ANSWER
  | ERROR
deriving DecidableEq

/-- The `.value` string of each `ReservationStatus` member (src/app.py:38-46). -/
def statusValue : ReservationStatus → String
  | .INITIATED => "initiated"
  | .CALLING_RESTAURANT => "calling_restaurant"
  | .SPEAKING_WITH_RESTAURANT => "speaking_with_restaurant"
  | .CHECKING_AVAILABILITY => "checking_availability"
  | .CONFIRMED => "confirmed"
  | .DECLINED => "declined"
  | .RESTAURANT_BUSY => "restaurant_busy"
  | .NO_ANSWER => "no_answer"
  | .ERROR => "error"

/-- One entry of `status_history`: the dict appended by `_add_status_history`
(src/app.py:167-172).  Its `status` field holds `status.value`, a string,
exactly as in the source. -/
structure HistoryEntry where
  timestamp : Nat
  status : String
  details : String
  source : String
deriving DecidableEq

/-- `@dataclass ReservationRequest` of src/app.py:48-75 (after
`__post_init__`: `created_at`/`updated_at` set, `status_history` a list). -/
structure ReservationRequest where
  reservation_id : String
  customer_name : String
  phone_number : String
  restaurant_name : String
  restaurant_phone : String
  date : String
  time : String
  party_size : Int
  special_requests : Option String := none
  status : ReservationStatus := .INITIATED
  inbound_call_id : Option String := none
  outbound_call_id : Option String := none
  created_at : Nat := 0
  updated_at : Nat := 0
  status_history : List HistoryEntry := []
  transcript : String := ""
  confirmation_details : String := ""
  failure_reason : String := ""
deriving DecidableEq

/-- Dict lookup (first and only binding of the key, in insertion order). -/
def lookupA {α : Type} : List (String × α) → String → Option α
  | [], _ => none
  | (k, v) :: rest, key => if k = key then some v else lookupA rest key

/-- Dict assignment `m[k] = v`: overwrite in place, or append a new binding. -/
def insertA {α : Type} : List (String × α) → String → α → List (String × α)
  | [], key, v => [(key, v)]
  | (k, w) :: rest, key, v =>
      if k = key then (key, v) :: rest else (k, w) :: insertA rest key v

/-- Dict deletion `del m[k]`. -/
def eraseA {α : Type} (m : List (String × α)) (key : String) : List (String × α) :=
  m.filter (fun p => p.1 ≠ key)

/-- The coordinator's mutable state: the module-level dicts
`active_reservations` and `pending_updates` (src/app.py:78-84). -/
structure CoordState where
  reservations : List (String × ReservationRequest) := []
  pending_updates : List (String × List String) := []
deriving DecidableEq

/-- Python truthiness of an optional string: `None` and `""` are falsy. -/
def pyTruthy : Option String → Bool
  | none => false
  | some s => s ≠ ""

/-- `ReservationCoordinator._format_status_message` (src/app.py:194-215):
`status_messages.get(status, f"Status update: {details}")` over the
direction-dependent template table. -/
def _format_status_message (status : ReservationStatus) (details : String)
    (from_outbound : Bool) : String :=
  if from_outbound then
    match status with
    | .CALLING_RESTAURANT => "I'm calling the restaurant now. " ++ details
    | .SPEAKING_WITH_RESTAURANT => "I'm speaking with the restaurant. " ++ details
    | .CHECKING_AVAILABILITY => "The restaurant is checking availability. " ++ details
    | .CONFIRMED => "Great news! Your reservation is confirmed. " ++ details
    | .DECLINED => "I'm sorry, the restaurant cannot accommodate your request. " ++ details
    | .RESTAURANT_BUSY => "The restaurant line is busy. " ++ details
    | .NO_ANSWER => "The restaurant is not answering. " ++ details
    | .ERROR => "There was an issue with the booking. " ++ details
    | .INITIATED => "Status update: " ++ details
  else
    match status with
    | .INITIATED => "Customer update: " ++ details
    | _ => "Status update: " ++ details

/-- The `update_source` computed at src/app.py:123-129: note the Python
truthiness guard `call_id and ...` (a `None` or empty `call_id` is always
classified as `"system"`). -/
def sourceOf (r : ReservationRequest) (call_id : Option String) : String :=
  if pyTruthy call_id ∧ call_id = r.outbound_call_id then "outbound_agent"
  else if pyTruthy call_id ∧ call_id = r.inbound_call_id then "inbound_agent"
  else "system"

/-- The `target_call_id` computed at src/app.py:177-184: raw Python `==`
comparisons with no truthiness guard, so `None == None` (or `"" == ""`)
matches and selects the counterpart. -/
def targetOf (r : ReservationRequest) (current_call_id : Option String) : Option String :=
  if current_call_id = r.inbound_call_id then r.outbound_call_id
  else if current_call_id = r.outbound_call_id then r.inbound_call_id
  else none

/-- `ReservationCoordinator._queue_update_for_other_agent`
(src/app.py:174-192): when the target is truthy, append the formatted
message to its queue (creating the queue if absent). -/
def _queue_update_for_other_agent (s : CoordState) (reservation : ReservationRequest)
    (current_call_id : Option String) (status : ReservationStatus) (details : String) :
    CoordState :=
  let target_call_id := targetOf reservation current_call_id
  match target_call_id with
  | none => s
  | some target =>
      if target = "" then s
      else
        let existing := (lookupA s.pending_updates target).getD []
        let update_message := _format_status_message status details
          (decide (current_call_id = reservation.outbound_call_id))
        { s with pending_updates :=
            insertA s.pending_updates target (existing ++ [update_message]) }

/-- `ReservationCoordinator._add_status_history` (src/app.py:163-172).
The source indexes `self.reservations[reservation_id]` unconditionally; every
caller has just ensured the key exists, so the `none` branch is unreachable
from the operations below. -/
def _add_status_history (s : CoordState) (reservation_id : String)
    (status : ReservationStatus) (details : String) (source : String) (now : Nat) :
    CoordState :=
  match lookupA s.reservations reservation_id with
  | none => s
  | some r =>
      let entry : HistoryEntry :=
        { timestamp := now, status := statusValue status,
          details := details, source := source }
      let r1 := { r with status_history := r.status_history ++ [entry] }
      { s with reservations := insertA s.reservations reservation_id r1 }

/-- `ReservationCoordinator.create_reservation` (src/app.py:86-110); the
fresh `uuid` is the explicit `reservation_id` argument. -/
def create_reservation (s : CoordState) (reservation_id : String)
    (customer_name phone_number restaurant_name restaurant_phone date time : String)
    (party_size : Int) (special_requests : Option String)
    (inbound_call_id : Option String) (now : Nat) : String × CoordState :=
  let reservation : ReservationRequest :=
    { reservation_id := reservation_id, customer_name := customer_name,
      phone_number := phone_number, restaurant_name := restaurant_name,
      restaurant_phone := restaurant_phone, date := date, time := time,
      party_size := party_size, special_requests := special_requests,
      inbound_call_id := inbound_call_id, created_at := now, updated_at := now }
  let s1 : CoordState :=
    { s with reservations := insertA s.reservations reservation_id reservation }
  let s2 := _add_status_history s1 reservation_id .INITIATED
    "Reservation request created" "system" now
  (reservation_id, s2)

/-- `ReservationCoordinator.update_reservation_status` (src/app.py:112-139):
returns `False` when the id is unknown; otherwise sets `status` and
`updated_at`, appends the history entry with the derived `update_source`,
queues an update for the other agent, and returns `True`. -/
def update_reservation_status (s : CoordState) (reservation_id : String)
    (status : ReservationStatus) (details : String) (call_id : Option String)
    (now : Nat) : Bool × CoordState :=
  match lookupA s.reservations reservation_id with
  | none => (false, s)
  | some reservation =>
      let reservation1 := { reservation with status := status, updated_at := now }
      let s1 : CoordState :=
        { s with reservations := insertA s.reservations reservation_id reservation1 }
      let update_source := sourceOf reservation1 call_id
      let s2 := _add_status_history s1 reservation_id status details update_source now
      let s3 := _queue_update_for_other_agent s2 reservation1 call_id status details
      (true, s3)

/-- `ReservationCoordinator.get_pending_updates` (src/app.py:141-146):
`get(call_id, [])`, then `del` when the key is present. -/
def get_pending_updates (s : CoordState) (call_id : String) :
    List String × CoordState :=
  let updates := (lookupA s.pending_updates call_id).getD []
  let s1 :=
    if (lookupA s.pending_updates call_id).isSome then
      { s with pending_updates := eraseA s.pending_updates call_id }
    else s
  (updates, s1)

/-- `ReservationCoordinator.set_outbound_call_id` (src/app.py:148-154). -/
def set_outbound_call_id (s : CoordState) (reservation_id call_id : String) :
    Bool × CoordState :=
  match lookupA s.reservations reservation_id with
  | none => (false, s)
  | some r =>
      let r1 := { r with outbound_call_id := some call_id }
      (true, { s with reservations := insertA s.reservations reservation_id r1 })

/-- `ReservationCoordinator.get_reservation_by_call_id` (src/app.py:156-161):
first record (in insertion order) whose inbound or outbound call id equals
`call_id` (the source returns `asdict(reservation)`; we return the record). -/
def get_reservation_by_call_id (s : CoordState) (call_id : String) :
    Option ReservationRequest :=
  go s.reservations
where
  go : List (String × ReservationRequest) → Option ReservationRequest
    | [] => none
    | (_, r) :: rest =>
        if r.inbound_call_id = some call_id ∨ r.outbound_call_id = some call_id
        then some r else go rest

/-- Python `str.lower()` (the source only lowercases ASCII text). -/
def pyLower (s : String) : String := String.mk (s.data.map Char.toLower)

/-- Python `needle in hay` on lists of characters: `needle` is a prefix of
some suffix of `hay` (the empty needle is contained in everything). -/
def listContainsSub (needle : List Char) : List Char → Bool
  | [] => needle.isEmpty
  | c :: t => needle.isPrefixOf (c :: t) || listContainsSub needle t

/-- Python `needle in hay` on strings. -/
def strContainsSub (hay needle : String) : Bool := listContainsSub needle.data hay.data

/-- `confirmed_keywords` of src/app.py:1327. -/
def confirmed_keywords : List String :=
  ["confirmed", "booked", "see you", "all set", "reservation for"]

/-- `failed_keywords` of src/app.py:1328. -/
def failed_keywords : List String :=
  ["fully booked", "no availability", "closed", "cannot", "can't"]

/-- The status decision of the `call_ended` branch of `retell_call_webhook`
(src/app.py:1330-1367): confirmation lexicon first, then decline lexicon,
else the unclear outcome `ERROR`. -/
def classify_status (transcript : String) : ReservationStatus :=
  let transcript_lower := pyLower transcript
  if confirmed_keywords.any (fun k => strContainsSub transcript_lower k) then .CONFIRMED
  else if failed_keywords.any (fun k => strContainsSub transcript_lower k) then .DECLINED
  else .ERROR

/-- Apply an in-place attribute mutation to the record stored under
`reservation_id` (Python mutates the aliased object inside the dict). -/
def modifyReservation (s : CoordState) (reservation_id : String)
    (f : ReservationRequest → ReservationRequest) : CoordState :=
  match lookupA s.reservations reservation_id with
  | none => s
  | some r =>
      { s with reservations := insertA s.reservations reservation_id (f r) }

/-- The `call_ended` handler of `retell_call_webhook` (src/app.py:1314-1372),
after the metadata guards: with the transcript, the reservation id and
`duration_seconds` extracted from the event.  Note the
`update_reservation_status` calls pass no `call_id` (Python default `None`). -/
def retell_call_ended (s : CoordState) (reservation_id : String)
    (transcript : String) (duration_seconds : Nat) (now : Nat) : CoordState :=
  match lookupA s.reservations reservation_id with
  | none => s
  | some reservation =>
      let transcript_lower := pyLower transcript
      let customer_name := reservation.customer_name
      if confirmed_keywords.any (fun k => strContainsSub transcript_lower k) then
        let s1 := (update_reservation_status s reservation_id .CONFIRMED
          "Restaurant confirmed the reservation via phone call" none now).2
        let confirmation_msg := "The restaurant confirmed your reservation." ++
          (if strContainsSub transcript_lower (pyLower customer_name) then
            " They have the reservation under " ++ customer_name ++ "."
          else "") ++
          " Call duration: " ++ toString duration_seconds ++ " seconds."
        modifyReservation s1 reservation_id (fun r =>
          { r with confirmation_details := confirmation_msg, transcript := transcript })
      else if failed_keywords.any (fun k => strContainsSub transcript_lower k) then
        let s1 := (update_reservation_status s reservation_id .DECLINED
          "Restaurant could not accommodate the reservation request" none now).2
        modifyReservation s1 reservation_id (fun r =>
          { r with
            failure_reason := "The restaurant couldn't accommodate your reservation request.",
            transcript := transcript })
      else
        let s1 := (update_reservation_status s reservation_id .ERROR
          "Call ended but outcome unclear" none now).2
        modifyReservation s1 reservation_id (fun r => { r with transcript := transcript })

/-- Result dict of `RestaurantAgent.check_reservation_status`
(src/app.py:619-671): `found`, an optional `status` string, and `message`. -/
structure CheckResult where
  found : Bool
  status : Option String := none
  message : String
deriving DecidableEq

/-- `RestaurantAgent.check_reservation_status` (src/app.py:619-671): a pure
read of the store rendering the current status as a sentence. -/
def check_reservation_status (s : CoordState) (reservation_id : String) : CheckResult :=
  match lookupA s.reservations reservation_id with
  | none =>
      { found := false,
        message := "I couldn't find that reservation. It may have expired or the ID is incorrect." }
  | some r =>
      match r.status with
      | .CALLING_RESTAURANT =>
          { found := true, status := some "calling",
            message := "I'm still trying to reach " ++ r.restaurant_name ++ ". Please hold on." }
      | .SPEAKING_WITH_RESTAURANT =>
          { found := true, status := some "speaking",
            message := "I'm currently speaking with " ++ r.restaurant_name ++
              " about your reservation." }
      | .CHECKING_AVAILABILITY =>
          { found := true, status := some "checking",
            message := "The restaurant is checking their availability for your requested time." }
      | .CONFIRMED =>
          { found := true, status := some "confirmed",
            message := "Great news! Your reservation at " ++ r.restaurant_name ++
              " is confirmed for " ++ r.customer_name ++ ", party of " ++
              toString r.party_size ++ " on " ++ r.date ++ " at " ++ r.time ++ ". " ++
              "They have your phone number " ++ r.phone_number ++ " on file. " ++
              r.confirmation_details }
      | .DECLINED =>
          { found := true, status := some "declined",
            message := "I couldn't make the reservation at " ++ r.restaurant_name ++ ". " ++
              r.failure_reason ++ " Would you like me to try another restaurant?" }
      | st =>
          { found := true, status := some (statusValue st),
            message := "The reservation status is: " ++ statusValue st }

/-- In the source, `check_reservation_status_updates` reads
`reservation_data = asdict(reservation)`; `dataclasses.asdict` leaves the
`status` field as a `ReservationStatus` enum member, so the subsequent
Python comparisons `status == 'calling_restaurant'` (enum against plain
string) are always `False`. -/
def pyStatusEqStr (_ : ReservationStatus) (_ : String) : Bool := false

/-- `check_reservation_status_updates` (src/app.py:703-731): drain the
session's mailbox and return the most recent message; with nothing pending,
fall back (through the always-false enum/string comparisons, see
`pyStatusEqStr`) to the generic still-working sentence. -/
def check_reservation_status_updates (s : CoordState) (call_id : String) :
    String × CoordState :=
  let p := get_pending_updates s call_id
  let updates := p.1
  let s1 := p.2
  if updates.isEmpty then
    match get_reservation_by_call_id s1 call_id with
    | some r =>
        let status := r.status
        if pyStatusEqStr status "calling_restaurant" then
          ("I'm still trying to reach the restaurant. Please hold on.", s1)
        else if pyStatusEqStr status "speaking_with_restaurant" then
          ("I'm currently speaking with the restaurant about your reservation.", s1)
        else if pyStatusEqStr status "checking_availability" then
          ("The restaurant is checking their availability for your requested time.", s1)
        else if pyStatusEqStr status "confirmed" then
          ("Your reservation has been confirmed!", s1)
        else if pyStatusEqStr status "declined" then
          ("Unfortunately, the restaurant cannot accommodate your request.", s1)
        else
          ("I'm still working on your reservation. Let me continue checking.", s1)
    | none => ("I'm still working on your reservation. Let me continue checking.", s1)
  else
    (updates.getLastD "", s1)

/-- `reservation_confirmed_by_restaurant` (src/app.py:786-804): advances the
status to `CONFIRMED` with the (possibly defaulted) details, then stores the
raw `confirmation_details` argument on the record. -/
def reservation_confirmed_by_restaurant (s : CoordState)
    (reservation_id call_id : String) (confirmation_details : String) (now : Nat) :
    String × CoordState :=
  let s1 := (update_reservation_status s reservation_id .CONFIRMED
    (if confirmation_details = "" then "Restaurant confirmed the reservation"
     else confirmation_details)
    (some call_id) now).2
  let s2 := modifyReservation s1 reservation_id
    (fun r => { r with confirmation_details := confirmation_details })
  ("Excellent! Reservation confirmed. Status updated.", s2)

/-- `reservation_declined_by_restaurant` (src/app.py:806-824): advances the
status to `DECLINED` with the (possibly defaulted) reason, then stores the
raw `reason` argument on the record. -/
def reservation_declined_by_restaurant (s : CoordState)
    (reservation_id call_id : String) (reason : String) (now : Nat) :
    String × CoordState :=
  let s1 := (update_reservation_status s reservation_id .DECLINED
    (if reason = "" then "Restaurant cannot accommodate the requested time" else reason)
    (some call_id) now).2
  let s2 := modifyReservation s1 reservation_id
    (fun r => { r with failure_reason := reason })
  ("Status updated - reservation declined by restaurant.", s2)

/-- A concrete booking intent used by the witness instances below. -/
def sampleRecord : ReservationRequest :=
  { reservation_id := "r1", customer_name := "Jane Doe", phone_number := "555",
    restaurant_name := "Bistro", restaurant_phone := "666", date := "tomorrow",
    time := "7pm", party_size := 2 }

/-- The record an accepted `update_reservation_status` call stores: status and
`updated_at` overwritten, one history entry appended with the derived source
(src/app.py:118-131). -/
def updatedRecord (r : ReservationRequest) (status : ReservationStatus)
    (details : String) (call_id : Option String) (now : Nat) : ReservationRequest :=
  let entry : HistoryEntry :=
    { timestamp := now, status := statusValue status, details := details,
      source := sourceOf r call_id }
  { r with
    status := status
    updated_at := now
    status_history := r.status_history ++ [entry] }

/-- The effect of `_queue_update_for_other_agent` on the `pending_updates`
dict alone (src/app.py:174-192). -/
def queueEffect (pending : List (String × List String)) (r : ReservationRequest)
    (call_id : Option String) (status : ReservationStatus) (details : String) :
    List (String × List String) :=
  match targetOf r call_id with
  | none => pending
  | some target =>
      if target = "" then pending
      else insertA pending target ((lookupA pending target).getD [] ++
        [_format_status_message status details (decide (call_id = r.outbound_call_id))])

theorem lookupA_insertA_self {α : Type} (m : List (String × α)) (k : String) (v : α) :
    lookupA (insertA m k v) k = some v := by
  induction m with
  | nil => simp [insertA, lookupA]
  | cons p rest ih =>
      obtain ⟨k', w⟩ := p
      by_cases h : k' = k
      · simp [insertA, lookupA, h]
      · simp [insertA, lookupA, h, ih]

theorem lookupA_insertA_ne {α : Type} (m : List (String × α)) (k k' : String) (v : α)
    (h : k' ≠ k) : lookupA (insertA m k v) k' = lookupA m k' := by
  have hne : ¬ (k = k') := fun hk => h hk.symm
  induction m with
  | nil => simp [insertA, lookupA, hne]
  | cons p rest ih =>
      obtain ⟨k0, w⟩ := p
      by_cases h0 : k0 = k
      · subst h0
        simp [insertA, lookupA, hne]
      · simp [insertA, lookupA, h0, ih]

theorem insertA_insertA {α : Type} (m : List (String × α)) (k : String) (v w : α) :
    insertA (insertA m k v) k w = insertA m k w := by
  induction m with
  | nil => simp [insertA]
  | cons p rest ih =>
      obtain ⟨k0, u⟩ := p
      by_cases h0 : k0 = k
      · simp [insertA, h0]
      · simp [insertA, h0, ih]

theorem lookupA_eraseA_self {α : Type} (m : List (String × α)) (k : String) :
    lookupA (eraseA m k) k = none := by
  induction m with
  | nil => simp [eraseA, lookupA]
  | cons p rest ih =>
      obtain ⟨k0, u⟩ := p
      by_cases h0 : k0 = k
      · simpa [eraseA, h0] using ih
      · simpa [eraseA, lookupA, h0] using ih

theorem queue_update_eq (s : CoordState) (r : ReservationRequest)
    (call_id : Option String) (status : ReservationStatus) (details : String) :
    _queue_update_for_other_agent s r call_id status details =
      { s with pending_updates := queueEffect s.pending_updates r call_id status details } := by
  unfold _queue_update_for_other_agent queueEffect
  cases targetOf r call_id with
  | none => rfl
  | some t =>
      by_cases ht : t = "" <;> simp [ht]

/-- What an accepted `update_reservation_status` call does, in one equation:
the stored record becomes `updatedRecord` and the mailbox table becomes
`queueEffect` of the old one. -/
theorem update_reservation_status_found (s : CoordState) (reservation_id : String)
    (r : ReservationRequest) (status : ReservationStatus) (details : String)
    (call_id : Option String) (now : Nat)
    (h : lookupA s.reservations reservation_id = some r) :
    update_reservation_status s reservation_id status details call_id now =
      (true,
        { reservations :=
            insertA s.reservations reservation_id (updatedRecord r status details call_id now),
          pending_updates := queueEffect s.pending_updates r call_id status details }) := by
  simp only [update_reservation_status, h, _add_status_history,
    lookupA_insertA_self, insertA_insertA, queue_update_eq]
  rfl

/-- What `create_reservation` does, in one equation: the fresh record is
stored with status `INITIATED` and a one-entry history, and the mailbox
table is untouched. -/
theorem create_reservation_eq (s : CoordState) (rid cn pn rn rp d t : String)
    (ps : Int) (sr icid : Option String) (now : Nat) :
    create_reservation s rid cn pn rn rp d t ps sr icid now =
      (rid,
        { reservations := insertA s.reservations rid
            ({ reservation_id := rid, customer_name := cn, phone_number := pn,
               restaurant_name := rn, restaurant_phone := rp, date := d, time := t,
               party_size := ps, special_requests := sr, inbound_call_id := icid,
               created_at := now, updated_at := now,
               status_history := [{ timestamp := now,
                                    status := statusValue ReservationStatus.INITIATED,
                                    details := "Reservation request created",
                                    source := "system" }] }),
          pending_updates := s.pending_updates }) := by
  simp only [create_reservation, _add_status_history, lookupA_insertA_self, insertA_insertA]
  rfl

/-- The confirmed branch of the `call_ended` webhook in one equation:
status advanced to `CONFIRMED` (with the fixed phone-call detail and no
source call id), and the stored `confirmation_details` is the fixed sentence
with the under-name clause present exactly when the lowercased customer
name occurs in the lowercased transcript. -/
theorem retell_call_ended_confirmed (s : CoordState) (rid : String)
    (r : ReservationRequest) (t : String) (dur now : Nat)
    (h : lookupA s.reservations rid = some r)
    (hc : confirmed_keywords.any (fun k => strContainsSub (pyLower t) k) = true) :
    retell_call_ended s rid t dur now =
      { reservations := insertA s.reservations rid
          ({ updatedRecord r .CONFIRMED "Restaurant confirmed the reservation via phone call"
              none now with
            confirmation_details := "The restaurant confirmed your reservation." ++
              (if strContainsSub (pyLower t) (pyLower r.customer_name) then
                " They have the reservation under " ++ r.customer_name ++ "."
              else "") ++
              " Call duration: " ++ toString dur ++ " seconds."
            transcript := t }),
        pending_updates := queueEffect s.pending_updates r none .CONFIRMED
          "Restaurant confirmed the reservation via phone call" } := by
  simp only [retell_call_ended, h, hc, if_true,
    update_reservation_status_found s rid r .CONFIRMED
      "Restaurant confirmed the reservation via phone call" none now h,
    modifyReservation, lookupA_insertA_self, insertA_insertA]

/-- C1: `get_pending_updates` returns the session's whole queue (the stored
sequence, which `_queue_update_for_other_agent` builds by appending, so it
is in enqueue order) and deletes it, so a second drain with no interleaved
enqueue returns the empty sequence; a session with nothing pending (no
stored queue) drains to the empty sequence since `getD` of `none` is `[]`. -/
theorem C1_drain_exhaustive_exactly_once (s : CoordState) (call_id : String) :
    (get_pending_updates s call_id).1 = (lookupA s.pending_updates call_id).getD []
    ∧ lookupA ((get_pending_updates s call_id).2).pending_updates call_id = none
    ∧ (get_pending_updates ((get_pending_updates s call_id).2) call_id).1 = [] := by
  refine ⟨rfl, ?_, ?_⟩ <;>
  · unfold get_pending_updates
    cases hl : lookupA s.pending_updates call_id <;>
      simp [hl, lookupA_eraseA_self]

/-- C8: on an identifier absent from the store, `update_reservation_status`
and `set_outbound_call_id` return `False` with the state untouched; on a
session with no stored queue, `get_pending_updates` returns `[]` with the
state untouched; `check_reservation_status` on an unknown id reports
`found = False` (with the not-found sentence).  All four are total
functions: the embedding has no exception path. -/
theorem C8_unknown_id_graceful (s : CoordState) (rid sid cid : String)
    (st : ReservationStatus) (det : String) (ocid : Option String) (now : Nat)
    (hr : lookupA s.reservations rid = none)
    (hp : lookupA s.pending_updates sid = none) :
    update_reservation_status s rid st det ocid now = (false, s)
    ∧ set_outbound_call_id s rid cid = (false, s)
    ∧ get_pending_updates s sid = ([], s)
    ∧ check_reservation_status s rid =
        { found := false,
          message := "I couldn't find that reservation. It may have expired or the ID is incorrect." } := by
  refine ⟨?_, ?_, ?_, ?_⟩
  · simp [update_reservation_status, hr]
  · simp [set_outbound_call_id, hr]
  · simp [get_pending_updates, hp]
  · simp [check_reservation_status, hr]

/-- C8 witness: the empty coordinator state misses every id and session. -/
theorem C8_unknown_id_graceful_witness :
    update_reservation_status {} "r1" .CONFIRMED "d" none 0 = (false, {})
    ∧ set_outbound_call_id {} "r1" "c1" = (false, {})
    ∧ get_pending_updates {} "s1" = ([], {})
    ∧ check_reservation_status {} "r1" =
        { found := false,
          message := "I couldn't find that reservation. It may have expired or the ID is incorrect." } :=
  C8_unknown_id_graceful {} "r1" "s1" "c1" .CONFIRMED "d" none 0 rfl rfl

/-- C9: from any terminal status (`CONFIRMED`, `DECLINED`, `RESTAURANT_BUSY`,
`NO_ANSWER`, `ERROR`), a further `update_reservation_status` call with any
new status is accepted: it returns `True`, overwrites `status` with the new
value (possibly regressing the terminal status), and appends exactly one
history entry — the source forbids no transition. -/
theorem C9_terminal_not_sticky (s : CoordState) (rid : String)
    (r : ReservationRequest) (st : ReservationStatus) (det : String)
    (cid : Option String) (now : Nat)
    (h : lookupA s.reservations rid = some r)
    (_hterm : r.status = .CONFIRMED ∨ r.status = .DECLINED ∨ r.status = .RESTAURANT_BUSY
      ∨ r.status = .NO_ANSWER ∨ r.status = .ERROR) :
    (update_reservation_status s rid st det cid now).1 = true
    ∧ ∃ q, lookupA ((update_reservation_status s rid st det cid now).2).reservations rid = some q
        ∧ q.status = st
        ∧ ∃ e, q.status_history = r.status_history ++ [e] := by
  rw [update_reservation_status_found s rid r st det cid now h]
  refine ⟨rfl, updatedRecord r st det cid now, ?_, ?_, ?_⟩
  · exact lookupA_insertA_self _ _ _
  · rfl
  · exact ⟨_, rfl⟩

/-- C9 witness: a `CONFIRMED` reservation accepts a regression to
`INITIATED`. -/
theorem C9_terminal_not_sticky_witness :
    (update_reservation_status
        { reservations := [("r1", { sampleRecord with status := .CONFIRMED })] }
        "r1" .INITIATED "again" none 9).1 = true
    ∧ ∃ q, lookupA ((update_reservation_status
        { reservations := [("r1", { sampleRecord with status := .CONFIRMED })] }
        "r1" .INITIATED "again" none 9).2).reservations "r1" = some q
        ∧ q.status = .INITIATED
        ∧ ∃ e, q.status_history =
            ({ sampleRecord with status := .CONFIRMED }).status_history ++ [e] := by
  exact C9_terminal_not_sticky _ "r1" _ .INITIATED "again" none 9 rfl (Or.inl rfl)

/-- C10: when a session has two or more pending messages,
`check_reservation_status_updates` drains them all but returns only the most
recent one; the earlier drained messages are discarded — after the call the
session's queue is gone from the mailbox table, so no later call can return
them. -/
theorem C10_poll_returns_only_latest (s : CoordState) (call_id : String)
    (l : List String)
    (h : lookupA s.pending_updates call_id = some l) (hlen : 2 ≤ l.length) :
    (check_reservation_status_updates s call_id).1 = l.getLastD ""
    ∧ lookupA ((check_reservation_status_updates s call_id).2).pending_updates call_id = none := by
  have hne : l.isEmpty = false := by
    cases l with
    | nil => simp at hlen
    | cons a t => rfl
  constructor
  · unfold check_reservation_status_updates
    simp [get_pending_updates, h, hne]
  · unfold check_reservation_status_updates
    simp [get_pending_updates, h, hne, lookupA_eraseA_self]

/-- C10 witness: a three-message queue yields the last message and an empty
mailbox entry. -/
theorem C10_poll_returns_only_latest_witness :
    (check_reservation_status_updates
        { pending_updates := [("in1", ["a", "b", "c"])] } "in1").1 = ["a", "b", "c"].getLastD ""
    ∧ lookupA ((check_reservation_status_updates
        { pending_updates := [("in1", ["a", "b", "c"])] } "in1").2).pending_updates "in1" = none := by
  exact C10_poll_returns_only_latest _ "in1" ["a", "b", "c"] rfl (by decide)

/-- C2 counterexample: a reservation whose `inbound_call_id` is unset
(`None`) and whose `outbound_call_id` is `"out1"`, updated with
`call_id = None`.  The history source is derived as `"system"` (the
truthiness guard of src/app.py:124-129 rejects `None`), yet
`_queue_update_for_other_agent` compares with raw `==` (src/app.py:179),
`None == None` matches the inbound slot, and a message IS enqueued to
`"out1"` — refuting the claim that a system-sourced update never
enqueues. -/
theorem C2_counterexample :
    sourceOf { sampleRecord with outbound_call_id := some "out1" } none = "system"
    ∧ ((update_reservation_status
        { reservations := [("r1", { sampleRecord with outbound_call_id := some "out1" })] }
        "r1" .CONFIRMED "details" none 5).2).pending_updates
      = [("out1", ["Status update: details"])] := by
  decide

/-- C2 (amended): no mailbox enqueue happens exactly when the counterpart
session computed by the raw comparisons of src/app.py:179-184 is unset or
empty — in particular whenever the source call id, compared as a raw Python
value (where `None`/`""` can match an unset stored id), equals neither
stored session id.  A call classified as `system` by the history-source
derivation can still enqueue when its null/empty call id raw-matches a
stored session id (see the counterexample). -/
theorem C2_no_enqueue_when_counterpart_falsy (s : CoordState) (reservation_id : String)
    (r : ReservationRequest) (status : ReservationStatus) (details : String)
    (call_id : Option String) (now : Nat)
    (h : lookupA s.reservations reservation_id = some r)
    (htarget : pyTruthy (targetOf r call_id) = false) :
    ((update_reservation_status s reservation_id status details call_id now).2).pending_updates
      = s.pending_updates := by
  rw [update_reservation_status_found s reservation_id r status details call_id now h]
  show queueEffect s.pending_updates r call_id status details = s.pending_updates
  unfold queueEffect
  cases ht : targetOf r call_id with
  | none => rfl
  | some tgt =>
      rw [ht] at htarget
      simp only [pyTruthy, decide_eq_false_iff_not, ne_eq, not_not] at htarget
      simp [htarget]

/-- C2 witness: a call id matching neither stored session id leaves the
mailbox table untouched. -/
theorem C2_no_enqueue_when_counterpart_falsy_witness :
    ((update_reservation_status
        { reservations := [("r1",
            { sampleRecord with inbound_call_id := some "in1", outbound_call_id := some "out1" })],
          pending_updates := [("in1", ["old"])] }
        "r1" .CONFIRMED "d" (some "zzz") 5).2).pending_updates
      = [("in1", ["old"])] := by
  exact C2_no_enqueue_when_counterpart_falsy
    { reservations := [("r1",
        { sampleRecord with inbound_call_id := some "in1", outbound_call_id := some "out1" })],
      pending_updates := [("in1", ["old"])] }
    "r1"
    { sampleRecord with inbound_call_id := some "in1", outbound_call_id := some "out1" }
    .CONFIRMED "d" (some "zzz") 5 (by decide) (by decide)

/-- C3 counterexample: an accepted `update_reservation_status` call with
`CONFIRMED` and detail `"Table at 7"` (resp. `DECLINED` and `"No tables"`)
leaves `confirmation_details` (resp. `failure_reason`) at `""`: the field
assignments live in the wrapper functions, not in
`update_reservation_status` (src/app.py:112-139 never touches either
field). -/
theorem C3_counterexample :
    ((lookupA ((update_reservation_status
        { reservations := [("r1", { sampleRecord with outbound_call_id := some "out1" })] }
        "r1" .CONFIRMED "Table at 7" (some "out1") 5).2).reservations "r1").map
      (fun q => q.confirmation_details)) = some ""
    ∧ ((lookupA ((update_reservation_status
        { reservations := [("r1", { sampleRecord with outbound_call_id := some "out1" })] }
        "r1" .DECLINED "No tables" (some "out1") 5).2).reservations "r1").map
      (fun q => q.failure_reason)) = some ""
    ∧ ("" : String) ≠ "Table at 7" ∧ ("" : String) ≠ "No tables" := by
  decide

/-- C3 (amended): `update_reservation_status` itself does not modify
`confirmation_details`/`failure_reason`; the outbound wrappers
`reservation_confirmed_by_restaurant` and
`reservation_declined_by_restaurant` set them to their raw argument right
after the status update (src/app.py:797-799 and 817-819), and when that
argument is non-empty it is exactly the detail string recorded by the
status update, so the stored field equals the call's detail. -/
theorem C3_wrappers_set_terminal_details (s s2 : CoordState) (rid cid : String)
    (r r2 : ReservationRequest) (arg reason : String) (now : Nat)
    (h : lookupA s.reservations rid = some r) (harg : ¬ (arg = ""))
    (h2 : lookupA s2.reservations rid = some r2) (hreason : ¬ (reason = "")) :
    (∃ q, lookupA ((reservation_confirmed_by_restaurant s rid cid arg now).2).reservations rid
        = some q
      ∧ q.status = .CONFIRMED ∧ q.confirmation_details = arg
      ∧ ∃ e, q.status_history = r.status_history ++ [e] ∧ e.details = arg)
    ∧ (∃ q, lookupA ((reservation_declined_by_restaurant s2 rid cid reason now).2).reservations rid
        = some q
      ∧ q.status = .DECLINED ∧ q.failure_reason = reason
      ∧ ∃ e, q.status_history = r2.status_history ++ [e] ∧ e.details = reason) := by
  constructor
  · unfold reservation_confirmed_by_restaurant
    rw [if_neg harg,
      update_reservation_status_found s rid r .CONFIRMED arg (some cid) now h]
    unfold modifyReservation
    simp only [lookupA_insertA_self, insertA_insertA]
    refine ⟨_, rfl, rfl, rfl,
      { timestamp := now, status := statusValue .CONFIRMED, details := arg,
        source := sourceOf r (some cid) }, rfl, rfl⟩
  · unfold reservation_declined_by_restaurant
    rw [if_neg hreason,
      update_reservation_status_found s2 rid r2 .DECLINED reason (some cid) now h2]
    unfold modifyReservation
    simp only [lookupA_insertA_self, insertA_insertA]
    refine ⟨_, rfl, rfl, rfl,
      { timestamp := now, status := statusValue .DECLINED, details := reason,
        source := sourceOf r2 (some cid) }, rfl, rfl⟩

/-- C3 witness: concrete confirmed and declined wrapper calls store their
non-empty argument in the terminal-detail fields. -/
theorem C3_wrappers_set_terminal_details_witness :
    (∃ q, lookupA ((reservation_confirmed_by_restaurant
        { reservations := [("r1", { sampleRecord with outbound_call_id := some "out1" })] }
        "r1" "out1" "Window table" 5).2).reservations "r1" = some q
      ∧ q.status = .CONFIRMED ∧ q.confirmation_details = "Window table"
      ∧ ∃ e, q.status_history =
          ({ sampleRecord with outbound_call_id := some "out1" }).status_history ++ [e]
        ∧ e.details = "Window table")
    ∧ (∃ q, lookupA ((reservation_declined_by_restaurant
        { reservations := [("r1", { sampleRecord with outbound_call_id := some "out1" })] }
        "r1" "out1" "Full tonight" 5).2).reservations "r1" = some q
      ∧ q.status = .DECLINED ∧ q.failure_reason = "Full tonight"
      ∧ ∃ e, q.status_history =
          ({ sampleRecord with outbound_call_id := some "out1" }).status_history ++ [e]
        ∧ e.details = "Full tonight") := by
  exact C3_wrappers_set_terminal_details _ _ "r1" "out1" _ _ "Window table" "Full tonight" 5
    (by decide) (by decide) (by decide) (by decide)

/-- C4: right after `create_reservation` the stored record has status
`INITIATED` and a one-entry history, and every accepted
`update_reservation_status` call appends exactly one history entry to the
previous history (no truncation or reordering) whose `status` field is the
`.value` string of the record's new current status. -/
theorem C4_creation_then_append_only (s : CoordState) (rid cn pn rn rp d t : String)
    (ps : Int) (sr icid : Option String) (now : Nat) :
    (∃ q, lookupA ((create_reservation s rid cn pn rn rp d t ps sr icid now).2).reservations rid
        = some q
      ∧ q.status = .INITIATED
      ∧ q.status_history = [{ timestamp := now, status := statusValue .INITIATED,
                              details := "Reservation request created", source := "system" }])
    ∧ ∀ (s2 : CoordState) (rid2 : String) (r : ReservationRequest) (st : ReservationStatus)
        (det : String) (cid : Option String) (n2 : Nat),
        lookupA s2.reservations rid2 = some r →
        (update_reservation_status s2 rid2 st det cid n2).1 = true
        ∧ ∃ q, lookupA ((update_reservation_status s2 rid2 st det cid n2).2).reservations rid2
            = some q
          ∧ q.status = st
          ∧ ∃ e, q.status_history = r.status_history ++ [e]
            ∧ e.status = statusValue q.status := by
  constructor
  · rw [create_reservation_eq]
    exact ⟨_, lookupA_insertA_self _ _ _, rfl, rfl⟩
  · intro s2 rid2 r st det cid n2 h2
    rw [update_reservation_status_found s2 rid2 r st det cid n2 h2]
    exact ⟨rfl, _, lookupA_insertA_self _ _ _, rfl, _, rfl, rfl⟩

/-- C4 witness: a concrete creation followed by a concrete accepted update. -/
theorem C4_creation_then_append_only_witness :
    (∃ q, lookupA ((create_reservation {} "r1" "Jane Doe" "555" "Bistro" "666"
        "tomorrow" "7pm" 2 none (some "in1") 3).2).reservations "r1" = some q
      ∧ q.status = .INITIATED
      ∧ q.status_history = [{ timestamp := 3, status := statusValue .INITIATED,
                              details := "Reservation request created", source := "system" }])
    ∧ ((update_reservation_status { reservations := [("r1", sampleRecord)] }
          "r1" .CALLING_RESTAURANT "dialing" none 4).1 = true
      ∧ ∃ q, lookupA ((update_reservation_status { reservations := [("r1", sampleRecord)] }
            "r1" .CALLING_RESTAURANT "dialing" none 4).2).reservations "r1" = some q
        ∧ q.status = .CALLING_RESTAURANT
        ∧ ∃ e, q.status_history = sampleRecord.status_history ++ [e]
          ∧ e.status = statusValue q.status) := by
  refine ⟨(C4_creation_then_append_only {} "r1" "Jane Doe" "555" "Bistro" "666"
      "tomorrow" "7pm" 2 none (some "in1") 3).1, ?_⟩
  exact (C4_creation_then_append_only {} "r1" "Jane Doe" "555" "Bistro" "666"
      "tomorrow" "7pm" 2 none (some "in1") 3).2
    { reservations := [("r1", sampleRecord)] } "r1" sampleRecord
    .CALLING_RESTAURANT "dialing" none 4 (by decide)

/-- C6: with both session ids set, distinct and non-empty, a `CONFIRMED`
update sourced from the outbound session appends exactly one message — the
outbound-to-inbound template "Great news! Your reservation is confirmed."
followed by the detail — to the inbound session's queue, and leaves the
outbound session's queue unchanged. -/
theorem C6_confirm_notifies_inbound_only (s : CoordState) (rid : String)
    (r : ReservationRequest) (ib ob det : String) (now : Nat)
    (h : lookupA s.reservations rid = some r)
    (hib : r.inbound_call_id = some ib) (hob : r.outbound_call_id = some ob)
    (hne : ib ≠ ob) (hib0 : ¬ (ib = "")) (_hob0 : ¬ (ob = "")) :
    lookupA ((update_reservation_status s rid .CONFIRMED det (some ob) now).2).pending_updates ib
      = some ((lookupA s.pending_updates ib).getD []
          ++ ["Great news! Your reservation is confirmed. " ++ det])
    ∧ lookupA ((update_reservation_status s rid .CONFIRMED det (some ob) now).2).pending_updates ob
      = lookupA s.pending_updates ob := by
  have hq : queueEffect s.pending_updates r (some ob) .CONFIRMED det
      = insertA s.pending_updates ib ((lookupA s.pending_updates ib).getD []
          ++ ["Great news! Your reservation is confirmed. " ++ det]) := by
    have hcond1 : ¬ (some ob = some ib) := fun hh => hne (Option.some.inj hh).symm
    unfold queueEffect targetOf
    rw [hib, hob, if_neg hcond1, if_pos rfl]
    simp [hib0, _format_status_message]
  rw [update_reservation_status_found s rid r .CONFIRMED det (some ob) now h, hq]
  constructor
  · exact lookupA_insertA_self _ _ _
  · exact lookupA_insertA_ne _ _ _ _ (fun hh => hne hh.symm)

/-- C6 witness: a concrete reservation with sessions `"in1"`/`"out1"` and a
message already queued for the inbound session. -/
theorem C6_confirm_notifies_inbound_only_witness :
    lookupA ((update_reservation_status
        { reservations := [("r1",
            { sampleRecord with inbound_call_id := some "in1", outbound_call_id := some "out1" })],
          pending_updates := [("in1", ["old"]), ("out1", ["prior"])] }
        "r1" .CONFIRMED "Yay" (some "out1") 5).2).pending_updates "in1"
      = some ((lookupA ([("in1", ["old"]), ("out1", ["prior"])] : List (String × List String))
            "in1").getD []
          ++ ["Great news! Your reservation is confirmed. " ++ "Yay"])
    ∧ lookupA ((update_reservation_status
        { reservations := [("r1",
            { sampleRecord with inbound_call_id := some "in1", outbound_call_id := some "out1" })],
          pending_updates := [("in1", ["old"]), ("out1", ["prior"])] }
        "r1" .CONFIRMED "Yay" (some "out1") 5).2).pending_updates "out1"
      = lookupA ([("in1", ["old"]), ("out1", ["prior"])] : List (String × List String)) "out1" := by
  exact C6_confirm_notifies_inbound_only
    { reservations := [("r1",
        { sampleRecord with inbound_call_id := some "in1", outbound_call_id := some "out1" })],
      pending_updates := [("in1", ["old"]), ("out1", ["prior"])] }
    "r1"
    { sampleRecord with inbound_call_id := some "in1", outbound_call_id := some "out1" }
    "in1" "out1" "Yay" 5
    (by decide) (by decide) (by decide) (by decide) (by decide) (by decide)

/-- C5: whenever a transcript contains (case-insensitively) a keyword of the
confirmation lexicon AND a keyword of the decline lexicon, the classifier
yields `CONFIRMED`: the confirmation lexicon is checked first
(src/app.py:1336 before 1352).  The second conjunct restates this on the
full webhook handler: the stored record ends `CONFIRMED`. -/
theorem C5_confirmation_lexicon_checked_first (t : String)
    (hc : confirmed_keywords.any (fun k => strContainsSub (pyLower t) k) = true)
    (_hd : failed_keywords.any (fun k => strContainsSub (pyLower t) k) = true) :
    classify_status t = .CONFIRMED
    ∧ ∀ (s : CoordState) (rid : String) (r : ReservationRequest) (dur now : Nat),
        lookupA s.reservations rid = some r →
        ∃ q, lookupA (retell_call_ended s rid t dur now).reservations rid = some q
          ∧ q.status = .CONFIRMED := by
  constructor
  · unfold classify_status
    simp [hc]
  · intro s rid r dur now h
    rw [retell_call_ended_confirmed s rid r t dur now h hc]
    exact ⟨_, lookupA_insertA_self _ _ _, rfl⟩

/-- C5 witness: "We are fully booked" contains the confirmation keyword
"booked" and the decline keyword "fully booked", and classifies as
`CONFIRMED`. -/
theorem C5_confirmation_lexicon_checked_first_witness :
    classify_status "We are fully booked" = .CONFIRMED
    ∧ ∃ q, lookupA (retell_call_ended { reservations := [("r1", sampleRecord)] }
        "r1" "We are fully booked" 0 5).reservations "r1" = some q
      ∧ q.status = .CONFIRMED := by
  have h := C5_confirmation_lexicon_checked_first "We are fully booked" (by decide) (by decide)
  exact ⟨h.1, h.2 { reservations := [("r1", sampleRecord)] } "r1" sampleRecord 0 5 (by decide)⟩

/-- C7 counterexample: the claim requires
`Classify("Sorry, we are fully booked tonight.") = Declined`, but `'booked'`
belongs to the confirmation lexicon (src/app.py:1327), which is checked
before the decline lexicon, so the code classifies this transcript as
`CONFIRMED`, not `DECLINED`. -/
theorem C7_counterexample :
    classify_status "Sorry, we are fully booked tonight." = .CONFIRMED
    ∧ ((lookupA (retell_call_ended { reservations := [("r1", sampleRecord)] }
        "r1" "Sorry, we are fully booked tonight." 0 5).reservations "r1").map
      (fun q => q.status)) = some .CONFIRMED
    ∧ ReservationStatus.CONFIRMED ≠ ReservationStatus.DECLINED := by
  decide

/-- C7 (amended): "The table is confirmed, see you at 7!" classifies as
`CONFIRMED` with a detail that does not mention "Jane Doe";
"Sorry, we are fully booked tonight." classifies as `CONFIRMED` (its word
"booked" is in the confirmation lexicon, which is checked first) — a
transcript matching only the decline lexicon, such as
"Sorry, we have no availability tonight.", classifies as `DECLINED`;
"Hello, thanks for calling." classifies as `ERROR`; and in the Confirmed
case the stored detail carries the under-name clause
"They have the reservation under {customerName}" exactly when the customer
name appears case-insensitively in the transcript. -/
theorem C7_classifier_examples_and_name_mention :
    ((lookupA (retell_call_ended { reservations := [("r1", sampleRecord)] }
        "r1" "The table is confirmed, see you at 7!" 0 5).reservations "r1").map
      (fun q => (q.status, q.confirmation_details)))
      = some (.CONFIRMED, "The restaurant confirmed your reservation. Call duration: 0 seconds.")
    ∧ strContainsSub "The restaurant confirmed your reservation. Call duration: 0 seconds."
        "Jane Doe" = false
    ∧ classify_status "Sorry, we are fully booked tonight." = .CONFIRMED
    ∧ classify_status "Sorry, we have no availability tonight." = .DECLINED
    ∧ classify_status "Hello, thanks for calling." = .ERROR
    ∧ ∀ (s : CoordState) (rid : String) (r : ReservationRequest) (t : String) (dur now : Nat),
        lookupA s.reservations rid = some r →
        confirmed_keywords.any (fun k => strContainsSub (pyLower t) k) = true →
        ∃ q, lookupA (retell_call_ended s rid t dur now).reservations rid = some q
          ∧ q.status = .CONFIRMED
          ∧ ((strContainsSub (pyLower t) (pyLower r.customer_name) = true
              ∧ q.confirmation_details = "The restaurant confirmed your reservation." ++
                  (" They have the reservation under " ++ r.customer_name ++ ".") ++
                  " Call duration: " ++ toString dur ++ " seconds.")
            ∨ (strContainsSub (pyLower t) (pyLower r.customer_name) = false
              ∧ q.confirmation_details = "The restaurant confirmed your reservation." ++
                  " Call duration: " ++ toString dur ++ " seconds.")) := by
  refine ⟨by decide, by decide, by decide, by decide, by decide, ?_⟩
  intro s rid r t dur now h hc
  rw [retell_call_ended_confirmed s rid r t dur now h hc]
  refine ⟨_, lookupA_insertA_self _ _ _, rfl, ?_⟩
  cases hname : strContainsSub (pyLower t) (pyLower r.customer_name) with
  | true =>
      refine Or.inl ⟨rfl, ?_⟩
      simp [hname]
  | false =>
      refine Or.inr ⟨rfl, ?_⟩
      simp [hname]

/-- C7 witness: a transcript containing both a confirmation keyword and the
customer's name yields the under-name clause. -/
theorem C7_classifier_examples_and_name_mention_witness :
    ∃ q, lookupA (retell_call_ended { reservations := [("r1", sampleRecord)] }
        "r1" "Reservation for JANE DOE is all set" 3 9).reservations "r1" = some q
      ∧ q.status = .CONFIRMED
      ∧ ((strContainsSub (pyLower "Reservation for JANE DOE is all set")
            (pyLower sampleRecord.customer_name) = true
          ∧ q.confirmation_details = "The restaurant confirmed your reservation." ++
              (" They have the reservation under " ++ sampleRecord.customer_name ++ ".") ++
              " Call duration: " ++ toString 3 ++ " seconds.")
        ∨ (strContainsSub (pyLower "Reservation for JANE DOE is all set")
            (pyLower sampleRecord.customer_name) = false
          ∧ q.confirmation_details = "The restaurant confirmed your reservation." ++
              " Call duration: " ++ toString 3 ++ " seconds.")) := by
  exact C7_classifier_examples_and_name_mention.2.2.2.2.2
    { reservations := [("r1", sampleRecord)] } "r1" sampleRecord
    "Reservation for JANE DOE is all set" 3 9 (by decide) (by decide)

end Retell
